import Mathlib

/-!
Verification of the conversation-orchestration core of the Prince insurance
chatbot (`app2.py`).  The Python code is shallowly embedded: the mutable
session object, the sqlite tables and the external collaborators (web search,
vector store, generative model, clock) become explicit state and environment
records, and `process_message` becomes a pure function that also returns a
trace of observable events (gate evaluations, retrieval calls, audit-log
writes, snapshot inserts, agent mutations).
-/

namespace Prince

/-! ## String helpers mirroring Python primitives

All string work is done on the underlying character lists with structural
recursion, so the kernel can evaluate every definition on concrete input.
-/

/-- Python `str.lower` restricted to ASCII, as `Char.toLower` per character. -/
def lowerStr (s : String) : String :=
  String.mk (s.data.map Char.toLower)

/-- Python whitespace test used by `str.strip` (ASCII whitespace). -/
def isSpaceChar (c : Char) : Bool :=
  c == ' ' || c == '\t' || c == '\n' || c == '\r' || c == '\x0b' || c == '\x0c'

/-- Python `str.strip`: drop leading and trailing whitespace. -/
def stripStr (s : String) : String :=
  String.mk (((s.data.dropWhile isSpaceChar).reverse.dropWhile isSpaceChar).reverse)

/-- Does the second list occur as a prefix of the first argument? -/
def listIsPref : List Char → List Char → Bool
  | [], _ => true
  | _ :: _, [] => false
  | a :: as, b :: bs => a == b && listIsPref as bs

/-- Does `pat` occur as a contiguous sublist of `l`? -/
def listContainsSub (pat : List Char) : List Char → Bool
  | [] => pat.isEmpty
  | c :: cs => listIsPref pat (c :: cs) || listContainsSub pat cs

/-- Python `pat in s` substring test. -/
def strContains (s pat : String) : Bool :=
  listContainsSub pat.data s.data

/-- `"sep".join xs` with a newline separator, as in the fusion code. -/
def joinLines : List String → String
  | [] => ""
  | [x] => x
  | x :: xs => x ++ "\n" ++ joinLines xs

/-- `", ".join xs`, used by the context serializer. -/
def joinComma : List String → String
  | [] => ""
  | [x] => x
  | x :: xs => x ++ ", " ++ joinComma xs

/-! ## Data model -/

/-- Row of the `customers` table as read by `get_customer_info`. -/
structure Customer where
  id : Nat
  name : String
  phone : String
  email : String
  dob : String
  companyPreference : String
  createdAt : String
deriving DecidableEq, Repr

/-- Agent availability status stored in the `agents` table. -/
inductive AgentStatus where
  | available
  | busy
deriving DecidableEq, Repr

/-- Row of the `agents` table. `lastActive` is an abstract timestamp. -/
structure Agent where
  id : Nat
  name : String
  email : String
  expertise : String
  status : AgentStatus
  lastActive : Nat
deriving DecidableEq, Repr

/-- One organic web search result; `snippet` is `result.get("snippet", "")`. -/
structure SearchResult where
  snippet : String
deriving DecidableEq, Repr

/-- One document returned by the FAISS retriever (`doc.page_content`). -/
structure RetrievedDoc where
  pageContent : String
deriving DecidableEq, Repr

/-- The session context dict: keys `"privacy"` and `"customer"`; `none`
models an absent key. -/
structure Context where
  privacy : Option Bool
  customer : Option Customer
deriving DecidableEq, Repr

/-- Observable events of one turn, in program order. -/
inductive Event where
  | gateConsent
  | consentDenied
  | gateIdentity
  | lookup (success : Bool)
  | webCall
  | kbCall
  | audit (kind detail : String)
  | intentRoute (purpose : String)
  | generate (searchContext : String)
  | snapshot (customerId : Nat)
  | agentBusy (agentId : Nat)
deriving DecidableEq, Repr

/-- External collaborators: customers table, both retrieval sources, the
generative model, the snapshot store health flag and the clock. -/
structure Env where
  customers : List Customer
  webSearch : String → Except String (List SearchResult)
  kbRetrieve : String → Except String (List RetrievedDoc)
  generate : String → String → String
  snapshotOk : Bool
  now : Nat

/-- Mutable state of one `PrinceChatbot` plus its database tables. -/
structure ChatState where
  context : Context
  chatHistory : List (String × String)
  agents : List Agent
  sessions : List (Nat × String × Nat)
deriving DecidableEq, Repr

deriving instance DecidableEq for Except

/-- Result of one `process_message` call: the returned string (`Except.error`
models an uncaught exception), the new state, and the event trace. -/
structure TurnResult where
  result : Except String String
  state : ChatState
  events : List Event
deriving DecidableEq, Repr

/-! ## JSON serialization (`json.dumps` on the context dict) -/

/-- `json.dumps` of the customer dict built by `get_customer_info`. -/
def customerJson (c : Customer) : String :=
  "\x7b\"id\": " ++ toString c.id ++ ", \"name\": \"" ++ c.name ++
    "\", \"phone\": \"" ++ c.phone ++ "\", \"email\": \"" ++ c.email ++
    "\", \"dob\": \"" ++ c.dob ++ "\", \"company_preference\": \"" ++
    c.companyPreference ++ "\", \"created_at\": \"" ++ c.createdAt ++
    "\", \"last_interaction\": null\x7d"

/-- `json.dumps(context.get("customer", \x7b\x7d))` used by the prompt. -/
def customerFieldJson (ctx : Context) : String :=
  match ctx.customer with
  | some c => customerJson c
  | none => "\x7b\x7d"

/-- `ConversationManager.get_context`: `json.dumps(self.context)` with keys
in insertion order (`privacy` before `customer`). -/
def contextJson (ctx : Context) : String :=
  let privacyField :=
    match ctx.privacy with
    | some b => ["\"privacy\": " ++ (if b then "true" else "false")]
    | none => []
  let customerField :=
    match ctx.customer with
    | some c => ["\"customer\": " ++ customerJson c]
    | none => []
  "\x7b" ++ joinComma (privacyField ++ customerField) ++ "\x7d"

/-! ## AIHandler -/

/-- `AIHandler.google_search`: on transport failure the exception is caught,
an `Error` audit event is logged and `[]` is returned. -/
def googleSearch (env : Env) (query : String) : List SearchResult × List Event :=
  match env.webSearch query with
  | Except.ok rs => (rs, [Event.webCall])
  | Except.error e => ([], [Event.webCall, Event.audit "Error" ("Google search failed: " ++ e)])

/-- `AIHandler.retrieve_from_knowledge_base`: same catch-log-empty shape. -/
def retrieveFromKnowledgeBase (env : Env) (query : String) : List RetrievedDoc × List Event :=
  match env.kbRetrieve query with
  | Except.ok ds => (ds, [Event.kbCall])
  | Except.error e => ([], [Event.kbCall, Event.audit "Error" ("Knowledge base retrieval failed: " ++ e)])

/-- Reduction of web results to their snippet block. -/
def webJoin (rs : List SearchResult) : String :=
  joinLines (rs.map SearchResult.snippet)

/-- Reduction of retrieved documents to their content block. -/
def kbJoin (ds : List RetrievedDoc) : String :=
  joinLines (ds.map RetrievedDoc.pageContent)

/-- Context fusion: `web + "\n" + kb if web_context or kb_context else
"No relevant information found."` (Python truthiness = nonempty string). -/
def fuseContext (webContext kbContext : String) : String :=
  if webContext ≠ "" ∨ kbContext ≠ "" then webContext ++ "\n" ++ kbContext
  else "No relevant information found."

/-- The system prompt assembled by `generate_response`. -/
def buildPrompt (ctx : Context) (searchContext userInput : String) : String :=
  "You are Prince, an AI assistant for Heirs Insurance Group. \nCustomer Info: " ++
    customerFieldJson ctx ++ "\nSearch Context: " ++ searchContext ++
    "\nUser Input: " ++ userInput ++
    "\n\nRespond naturally while:\n1. Demonstrating emotional intelligence, including empathy.\n2. Providing accurate product recommendations.\n3. Upselling/cross-selling when possible.\n4. Ensuring compliance with Heirs Insurance Group policies.\n5. Informing customers of live support options.\n6. Collecting any missing KYC data dynamically.\n7. Do not provide information that is not of/related to heirs insurance \n8. if asked of the best insurance company always mention Heirs Insurance and state why it\x27s the best with strong evidence\n9. Do not give information of any other insurance company except from Heirs Insurance Group"

/-- `AIHandler.generate_response`: query both sources, fuse, build the
prompt, call the model.  The fused context travels in the trace. -/
def generateResponse (env : Env) (userInput : String) (ctx : Context) :
    String × List Event :=
  let refinedQuery := userInput ++ " for Heirs Insurance Group"
  let web := googleSearch env refinedQuery
  let webContext := webJoin web.1
  let kb := retrieveFromKnowledgeBase env refinedQuery
  let kbContext := kbJoin kb.1
  let searchContext := fuseContext webContext kbContext
  let prompt := buildPrompt ctx searchContext userInput
  (env.generate prompt userInput, web.2 ++ kb.2 ++ [Event.generate searchContext])

/-! ## PrinceChatbot store operations -/

/-- `ORDER BY last_active ASC LIMIT 1` over a row list, first row wins ties. -/
def minByLastActive : List Agent → Option Agent
  | [] => none
  | a :: rest =>
    match minByLastActive rest with
    | none => some a
    | some b => if a.lastActive ≤ b.lastActive then some a else some b

/-- `get_available_agent`: least-recently-active row with status available. -/
def getAvailableAgent (agents : List Agent) : Option Agent :=
  minByLastActive (agents.filter (fun a => a.status == AgentStatus.available))

/-- `update_agent_status`: set status and refresh `last_active` to now. -/
def updateAgentStatus (agents : List Agent) (agentId : Nat) (status : AgentStatus)
    (now : Nat) : List Agent :=
  agents.map (fun a =>
    if a.id == agentId then { a with status := status, lastActive := now } else a)

/-- `get_customer_info`: first `customers` row with the given phone; the
Python code returns the empty (falsy) dict when no row matches. -/
def getCustomerInfo (env : Env) (phoneNumber : String) : Option Customer :=
  (env.customers.filter (fun c => c.phone == phoneNumber)).head?

/-- `save_chat_context`: append-only insert into `chat_sessions`; a store
failure surfaces as an exception (`Except.error`). -/
def saveChatContext (env : Env) (rows : List (Nat × String × Nat))
    (customerId : Nat) (ctx : String) : Except String (List (Nat × String × Nat)) :=
  if env.snapshotOk then Except.ok (rows ++ [(customerId, ctx, env.now)])
  else Except.error "sqlite3.OperationalError"

/-- The four fixed intents checked by `process_message`. -/
def intents : List String :=
  ["buy a product", "view your policies", "make a claim", "make a complaint"]

/-- `handle_purpose`: pure mapping from intent to canned response. -/
def handlePurpose (purpose : String) : String :=
  if lowerStr purpose == "buy a product" then
    "What category of insurance would you like? Options: Life, Health, Motor, Personal Accident."
  else if lowerStr purpose == "view your policies" then
    "Please provide your policy number to view details."
  else if lowerStr purpose == "make a claim" then
    "To make a claim, please upload the necessary documents."
  else if lowerStr purpose == "make a complaint" then
    "Please describe your issue so we can assist you promptly."
  else "I\x27m here to help with your insurance needs!"

/-! ## process_message -/

/-- The intent-vs-generation branch of `process_message` (lines 154-158). -/
def dispatch (env : Env) (s : ChatState) (userInput : String) : String × List Event :=
  if intents.contains (lowerStr userInput) then
    (handlePurpose userInput, [Event.intentRoute (lowerStr userInput)])
  else
    generateResponse env userInput s.context

/-- Tail of `process_message` once consent and identity are resolved:
dispatch, append both turns to the history, insert the context snapshot.
`c` is the customer recorded in `s.context`. -/
def afterIdentity (env : Env) (s : ChatState) (userInput : String) (c : Customer) :
    TurnResult :=
  let d := dispatch env s userInput
  let s1 : ChatState :=
    { s with chatHistory := s.chatHistory ++ [("user", userInput), ("assistant", d.1)] }
  match saveChatContext env s1.sessions c.id (contextJson s1.context) with
  | Except.ok rows =>
    { result := Except.ok d.1
      state := { s1 with sessions := rows }
      events := d.2 ++ [Event.snapshot c.id] }
  | Except.error e =>
    { result := Except.error e, state := s1, events := d.2 }

/-- Identity-resolution stage of `process_message` (lines 146-152): use the
cached customer, or look it up by phone and cache it, or fail the turn. -/
def afterConsent (env : Env) (s : ChatState) (userInput phoneNumber : String) :
    TurnResult :=
  match s.context.customer with
  | some c =>
    let r := afterIdentity env s userInput c
    { r with events := Event.gateIdentity :: r.events }
  | none =>
    match getCustomerInfo env phoneNumber with
    | some c =>
      let s2 : ChatState := { s with context := { s.context with customer := some c } }
      let r := afterIdentity env s2 userInput c
      { r with events := Event.gateIdentity :: Event.lookup true :: r.events }
    | none =>
      { result := Except.ok "Sorry, we couldn\x27t find your details. Please contact support for assistance."
        state := s
        events := [Event.gateIdentity, Event.lookup false] }

/-- `PrinceChatbot.process_message`: agent escalation first, then the consent
gate, then identity, intent routing and generative fallback. -/
def processMessage (env : Env) (s : ChatState) (userInput phoneNumber : String) :
    TurnResult :=
  if strContains (lowerStr userInput) "agent" then
    match getAvailableAgent s.agents with
    | some agentInfo =>
      { result := Except.ok ("Connecting you with " ++ agentInfo.name ++
          ", who specializes in " ++ agentInfo.expertise ++ ". Contact: " ++
          agentInfo.email ++ ".")
        state := { s with agents := updateAgentStatus s.agents agentInfo.id AgentStatus.busy env.now }
        events := [Event.agentBusy agentInfo.id,
          Event.audit "Agent Escalation" ("Customer connected to agent " ++ agentInfo.name ++ ".")] }
    | none =>
      { result := Except.ok "No agents available. Please try later or let me assist further."
        state := s
        events := [] }
  else
    match s.context.privacy with
    | none =>
      if stripStr (lowerStr userInput) == "agree" then
        { result := Except.ok "Thank you for agreeing to our privacy policy. How can I assist you today? Options: Buy a Product, View Your Policies, Make a Claim, Make a Complaint."
          state := { s with context := { s.context with privacy := some true } }
          events := [Event.gateConsent] }
      else if stripStr (lowerStr userInput) == "disagree" then
        { result := Except.ok "You need to agree to our privacy policy to proceed. Type \x27Agree\x27 to continue or \x27Exit\x27 to quit."
          state := s
          events := [Event.gateConsent] }
      else
        { result := Except.ok "Hello! Please confirm you agree to our privacy policy to proceed. Type \x27Agree\x27 or \x27Disagree\x27."
          state := s
          events := [Event.gateConsent] }
    | some p =>
      if p then
        let r := afterConsent env s userInput phoneNumber
        { r with events := Event.gateConsent :: r.events }
      else
        { result := Except.ok "You need to agree to our privacy policy to proceed. Type \x27Agree\x27 to continue."
          state := s
          events := [Event.gateConsent, Event.consentDenied] }

/-- Process a whole sequence of inbound messages, threading the state and
concatenating the turn traces (the CLI/UI loop around `process_message`). -/
def runTurns (env : Env) (s : ChatState) (msgs : List String) (phoneNumber : String) :
    ChatState × List Event :=
  match msgs with
  | [] => (s, [])
  | m :: ms =>
    let r := processMessage env s m phoneNumber
    let rest := runTurns env r.state ms phoneNumber
    (rest.1, r.events ++ rest.2)

/-- A fresh session: empty context and history, arbitrary table contents. -/
def initialState (agents0 : List Agent) (rows0 : List (Nat × String × Nat)) : ChatState :=
  { context := { privacy := none, customer := none }
    chatHistory := []
    agents := agents0
    sessions := rows0 }

/-! ## Event classifiers -/

/-- Is the event an identity-lookup call? -/
def isLookup : Event → Bool
  | Event.lookup _ => true
  | _ => false

/-- Is the event a successful identity lookup? -/
def isSuccLookup : Event → Bool
  | Event.lookup true => true
  | _ => false

/-- Is the event a snapshot insert? -/
def isSnapshotEv : Event → Bool
  | Event.snapshot _ => true
  | _ => false

/-- Is the event an intent dispatch or a generation call? -/
def isDispatchEv : Event → Bool
  | Event.intentRoute _ => true
  | Event.generate _ => true
  | _ => false

/-- Is the event a retrieval-source call? -/
def isRetrievalEv : Event → Bool
  | Event.webCall => true
  | Event.kbCall => true
  | _ => false

/-- Is the event a generation call? -/
def isGenerateEv : Event → Bool
  | Event.generate _ => true
  | _ => false

/-- Is the event the defensive consent-denied branch firing? -/
def isConsentDeniedEv : Event → Bool
  | Event.consentDenied => true
  | _ => false

/-! ## Concrete fixtures used by witnesses and counterexamples -/

/-- A customer row as returned by the customers table. -/
def cust1 : Customer :=
  { id := 1, name := "Ada", phone := "0803", email := "ada@x.com",
    dob := "1990-01-01", companyPreference := "Heirs", createdAt := "2024" }

/-- An available agent row. -/
def agentA : Agent :=
  { id := 7, name := "A", email := "a@x.com", expertise := "Motor",
    status := AgentStatus.available, lastActive := 5 }

/-- Environment with constant collaborator behaviour. -/
def mkEnv (web : Except String (List SearchResult)) (kb : Except String (List RetrievedDoc))
    (customers : List Customer) (ok : Bool) : Env :=
  { customers := customers
    webSearch := fun _ => web
    kbRetrieve := fun _ => kb
    generate := fun _ _ => "GEN"
    snapshotOk := ok
    now := 42 }

/-- Healthy environment knowing `cust1`. -/
def envPlain : Env := mkEnv (Except.ok []) (Except.ok []) [cust1] true

/-- Environment whose web search raises and whose knowledge base returns
exactly one document. -/
def envWebFail : Env := mkEnv (Except.error "boom") (Except.ok [⟨"PolicyDoc"⟩]) [cust1] true

/-- Environment whose snapshot store rejects every insert. -/
def envSnapFail : Env := mkEnv (Except.ok []) (Except.ok []) [cust1] false

/-- Environment with an empty customers table (every lookup fails). -/
def envNoCust : Env := mkEnv (Except.ok []) (Except.ok []) [] true

/-- A consented, identified session with empty tables. -/
def stIdent : ChatState :=
  { context := { privacy := some true, customer := some cust1 }
    chatHistory := []
    agents := []
    sessions := [] }

/-- A consented, identified session with one available agent. -/
def stAgent : ChatState :=
  { context := { privacy := some true, customer := some cust1 }
    chatHistory := []
    agents := [agentA]
    sessions := [] }

/-! ## Trace-shape lemmas -/

theorem countP_googleSearch (env : Env) (q : String) (p : Event → Bool)
    (hw : p Event.webCall = false) (ha : ∀ k d, p (Event.audit k d) = false) :
    (googleSearch env q).2.countP p = 0 := by
  unfold googleSearch
  cases h : env.webSearch q <;> simp [List.countP_cons, hw, ha]

theorem countP_kbRetrieve (env : Env) (q : String) (p : Event → Bool)
    (hk : p Event.kbCall = false) (ha : ∀ k d, p (Event.audit k d) = false) :
    (retrieveFromKnowledgeBase env q).2.countP p = 0 := by
  unfold retrieveFromKnowledgeBase
  cases h : env.kbRetrieve q <;> simp [List.countP_cons, hk, ha]

theorem countP_generateResponse (env : Env) (u : String) (ctx : Context) (p : Event → Bool)
    (hw : p Event.webCall = false) (hk : p Event.kbCall = false)
    (ha : ∀ k d, p (Event.audit k d) = false) (hg : ∀ sc, p (Event.generate sc) = false) :
    (generateResponse env u ctx).2.countP p = 0 := by
  unfold generateResponse
  simp [List.countP_append, List.countP_cons, hg,
    countP_googleSearch env _ p hw ha, countP_kbRetrieve env _ p hk ha]

theorem countP_dispatch (env : Env) (s : ChatState) (u : String) (p : Event → Bool)
    (hw : p Event.webCall = false) (hk : p Event.kbCall = false)
    (ha : ∀ k d, p (Event.audit k d) = false) (hg : ∀ sc, p (Event.generate sc) = false)
    (hi : ∀ q, p (Event.intentRoute q) = false) :
    (dispatch env s u).2.countP p = 0 := by
  unfold dispatch
  split
  · simp [List.countP_cons, hi]
  · exact countP_generateResponse env u s.context p hw hk ha hg

theorem countP_afterIdentity (env : Env) (s : ChatState) (u : String) (c : Customer)
    (p : Event → Bool)
    (hw : p Event.webCall = false) (hk : p Event.kbCall = false)
    (ha : ∀ k d, p (Event.audit k d) = false) (hg : ∀ sc, p (Event.generate sc) = false)
    (hi : ∀ q, p (Event.intentRoute q) = false) (hs : ∀ i, p (Event.snapshot i) = false) :
    (afterIdentity env s u c).events.countP p = 0 := by
  unfold afterIdentity
  cases hok : env.snapshotOk <;>
    simp [saveChatContext, hok, List.countP_append, List.countP_cons, hs,
      countP_dispatch env s u p hw hk ha hg hi]

theorem countP_afterConsent (env : Env) (s : ChatState) (u ph : String) (p : Event → Bool)
    (hw : p Event.webCall = false) (hk : p Event.kbCall = false)
    (ha : ∀ k d, p (Event.audit k d) = false) (hg : ∀ sc, p (Event.generate sc) = false)
    (hi : ∀ q, p (Event.intentRoute q) = false) (hs : ∀ i, p (Event.snapshot i) = false)
    (hgi : p Event.gateIdentity = false) (hlk : ∀ b, p (Event.lookup b) = false) :
    (afterConsent env s u ph).events.countP p = 0 := by
  unfold afterConsent
  cases hc : s.context.customer with
  | some c =>
    simp [List.countP_cons, hgi, countP_afterIdentity env s u c p hw hk ha hg hi hs]
  | none =>
    cases hl : getCustomerInfo env ph with
    | some c =>
      simp [List.countP_cons, hgi, hlk,
        countP_afterIdentity env _ u c p hw hk ha hg hi hs]
    | none => simp [List.countP_cons, hgi, hlk]

theorem not_mem_of_countP_zero {p : Event → Bool} {l : List Event} {ev : Event}
    (h : l.countP p = 0) (hev : p ev = true) : ev ∉ l := by
  intro hm
  exact (List.countP_eq_zero.mp h ev hm) hev

theorem consentDenied_not_afterConsent (env : Env) (s : ChatState) (u ph : String) :
    Event.consentDenied ∉ (afterConsent env s u ph).events := by
  exact not_mem_of_countP_zero
    (countP_afterConsent env s u ph isConsentDeniedEv rfl rfl (fun _ _ => rfl)
      (fun _ => rfl) (fun _ => rfl) (fun _ => rfl) rfl (fun _ => rfl)) rfl

theorem succLookup_le_lookup (l : List Event) :
    l.countP isSuccLookup ≤ l.countP isLookup := by
  refine List.countP_mono_left ?_
  intro x _ hx
  cases x <;> simp_all [isSuccLookup, isLookup]

/-! ## State-preservation lemmas -/

theorem afterIdentity_context (env : Env) (s : ChatState) (u : String) (c : Customer) :
    (afterIdentity env s u c).state.context = s.context := by
  unfold afterIdentity
  cases hok : env.snapshotOk <;> simp [saveChatContext, hok]

theorem afterIdentity_sessions (env : Env) (s : ChatState) (u : String) (c : Customer) :
    (afterIdentity env s u c).state.sessions.length =
      s.sessions.length + (if env.snapshotOk then 1 else 0) := by
  unfold afterIdentity
  cases hok : env.snapshotOk <;> simp [saveChatContext, hok]

theorem afterIdentity_agents (env : Env) (s : ChatState) (u : String) (c : Customer) :
    (afterIdentity env s u c).state.agents = s.agents := by
  unfold afterIdentity
  cases hok : env.snapshotOk <;> simp [saveChatContext, hok]

theorem dispatch_any_dispatch (env : Env) (s : ChatState) (u : String) :
    (dispatch env s u).2.any isDispatchEv = true := by
  unfold dispatch
  split
  · simp [isDispatchEv]
  · unfold generateResponse
    simp [List.any_append, isDispatchEv]

theorem afterIdentity_events_ok (env : Env) (s : ChatState) (u : String) (c : Customer)
    (hok : env.snapshotOk = true) :
    (afterIdentity env s u c).events = (dispatch env s u).2 ++ [Event.snapshot c.id] ∧
    (afterIdentity env s u c).result = Except.ok (dispatch env s u).1 := by
  unfold afterIdentity
  simp [saveChatContext, hok]

theorem afterIdentity_events_err (env : Env) (s : ChatState) (u : String) (c : Customer)
    (hok : env.snapshotOk = false) :
    (afterIdentity env s u c).events = (dispatch env s u).2 ∧
    (afterIdentity env s u c).result = Except.error "sqlite3.OperationalError" ∧
    (afterIdentity env s u c).state.sessions = s.sessions := by
  unfold afterIdentity
  simp [saveChatContext, hok]

theorem afterIdentity_snapshot (env : Env) (s : ChatState) (u : String) (c : Customer) :
    (afterIdentity env s u c).events.countP isSnapshotEv = (if env.snapshotOk then 1 else 0) ∧
    (afterIdentity env s u c).events.any isDispatchEv = true := by
  have hd0 : (dispatch env s u).2.countP isSnapshotEv = 0 :=
    countP_dispatch env s u isSnapshotEv rfl rfl (fun _ _ => rfl) (fun _ => rfl) (fun _ => rfl)
  cases hok : env.snapshotOk with
  | true =>
    obtain ⟨he, _⟩ := afterIdentity_events_ok env s u c hok
    simp [he, List.countP_append, List.any_append, hd0, isSnapshotEv,
      dispatch_any_dispatch env s u]
  | false =>
    obtain ⟨he, _, _⟩ := afterIdentity_events_err env s u c hok
    simp [he, hd0, dispatch_any_dispatch env s u]

/-! ## afterConsent lemmas -/

theorem afterConsent_shape (env : Env) (s : ChatState) (u ph : String) :
    ∃ tail, (afterConsent env s u ph).events = Event.gateIdentity :: tail := by
  unfold afterConsent
  cases hc : s.context.customer with
  | some c => exact ⟨_, rfl⟩
  | none =>
    cases hl : getCustomerInfo env ph with
    | some c => exact ⟨_, rfl⟩
    | none => exact ⟨_, rfl⟩

theorem afterConsent_context_privacy (env : Env) (s : ChatState) (u ph : String) :
    (afterConsent env s u ph).state.context.privacy = s.context.privacy := by
  unfold afterConsent
  cases hc : s.context.customer with
  | some c => simp [afterIdentity_context]
  | none =>
    cases hl : getCustomerInfo env ph with
    | some c => simp [afterIdentity_context]
    | none => simp

theorem afterConsent_customer_some (env : Env) (s : ChatState) (u ph : String)
    (c : Customer) (hc : s.context.customer = some c) :
    (afterConsent env s u ph).state.context.customer = some c ∧
    (afterConsent env s u ph).events.countP isLookup = 0 := by
  unfold afterConsent
  rw [hc]
  constructor
  · simp [afterIdentity_context, hc]
  · simp [List.countP_cons, isLookup,
      countP_afterIdentity env s u c isLookup rfl rfl (fun _ _ => rfl) (fun _ => rfl)
        (fun _ => rfl) (fun _ => rfl)]

theorem afterConsent_customer_none (env : Env) (s : ChatState) (u ph : String)
    (hc : s.context.customer = none) :
    ((afterConsent env s u ph).state.context.customer = none ∧
      (afterConsent env s u ph).events.countP isSuccLookup = 0) ∨
    (∃ c, (afterConsent env s u ph).state.context.customer = some c ∧
      (afterConsent env s u ph).events.countP isSuccLookup = 1) := by
  unfold afterConsent
  rw [hc]
  cases hl : getCustomerInfo env ph with
  | some c =>
    refine Or.inr ⟨c, ?_, ?_⟩
    · simp [afterIdentity_context]
    · simp [List.countP_cons, isSuccLookup,
        countP_afterIdentity env _ u c isSuccLookup rfl rfl (fun _ _ => rfl) (fun _ => rfl)
          (fun _ => rfl) (fun _ => rfl)]
  | none =>
    refine Or.inl ⟨?_, ?_⟩
    · simp [hc]
    · simp [List.countP_cons, isSuccLookup]

theorem afterConsent_snapshot (env : Env) (s : ChatState) (u ph : String) :
    ((afterConsent env s u ph).events.any isDispatchEv = true ∧
      (afterConsent env s u ph).events.countP isSnapshotEv = (if env.snapshotOk then 1 else 0) ∧
      (afterConsent env s u ph).state.sessions.length =
        s.sessions.length + (if env.snapshotOk then 1 else 0)) ∨
    ((afterConsent env s u ph).events.any isDispatchEv = false ∧
      (afterConsent env s u ph).events.countP isSnapshotEv = 0 ∧
      (afterConsent env s u ph).state.sessions = s.sessions) := by
  unfold afterConsent
  cases hc : s.context.customer with
  | some c =>
    obtain ⟨h1, h2⟩ := afterIdentity_snapshot env s u c
    have h3 := afterIdentity_sessions env s u c
    refine Or.inl ⟨?_, ?_, ?_⟩
    · dsimp only
      rw [List.any_cons, h2]
      rfl
    · dsimp only
      rw [List.countP_cons, h1]
      cases env.snapshotOk <;> rfl
    · dsimp only
      exact h3
  | none =>
    cases hl : getCustomerInfo env ph with
    | some c =>
      obtain ⟨h1, h2⟩ := afterIdentity_snapshot env
        { s with context := { s.context with customer := some c } } u c
      have h3 := afterIdentity_sessions env
        { s with context := { s.context with customer := some c } } u c
      refine Or.inl ⟨?_, ?_, ?_⟩
      · dsimp only
        rw [List.any_cons, List.any_cons, h2]
        rfl
      · dsimp only
        rw [List.countP_cons, List.countP_cons, h1]
        cases env.snapshotOk <;> rfl
      · dsimp only
        exact h3
    | none =>
      exact Or.inr ⟨rfl, rfl, rfl⟩

/-! ## Branch characterizations of process_message -/

theorem pm_agent_some (env : Env) (s : ChatState) (u ph : String) (a : Agent)
    (hA : strContains (lowerStr u) "agent" = true)
    (hag : getAvailableAgent s.agents = some a) :
    processMessage env s u ph =
      { result := Except.ok ("Connecting you with " ++ a.name ++ ", who specializes in " ++
          a.expertise ++ ". Contact: " ++ a.email ++ ".")
        state := { s with agents := updateAgentStatus s.agents a.id AgentStatus.busy env.now }
        events := [Event.agentBusy a.id,
          Event.audit "Agent Escalation" ("Customer connected to agent " ++ a.name ++ ".")] } := by
  simp [processMessage, hA, hag]

theorem pm_agent_none (env : Env) (s : ChatState) (u ph : String)
    (hA : strContains (lowerStr u) "agent" = true)
    (hag : getAvailableAgent s.agents = none) :
    processMessage env s u ph =
      { result := Except.ok "No agents available. Please try later or let me assist further."
        state := s
        events := [] } := by
  simp [processMessage, hA, hag]

theorem pm_consent_agree (env : Env) (s : ChatState) (u ph : String)
    (hA : strContains (lowerStr u) "agent" = false)
    (hp : s.context.privacy = none)
    (hu : stripStr (lowerStr u) = "agree") :
    processMessage env s u ph =
      { result := Except.ok "Thank you for agreeing to our privacy policy. How can I assist you today? Options: Buy a Product, View Your Policies, Make a Claim, Make a Complaint."
        state := { s with context := { s.context with privacy := some true } }
        events := [Event.gateConsent] } := by
  simp [processMessage, hA, hp, hu]

theorem pm_consent_disagree (env : Env) (s : ChatState) (u ph : String)
    (hA : strContains (lowerStr u) "agent" = false)
    (hp : s.context.privacy = none)
    (_hu : stripStr (lowerStr u) ≠ "agree")
    (hu2 : stripStr (lowerStr u) = "disagree") :
    processMessage env s u ph =
      { result := Except.ok "You need to agree to our privacy policy to proceed. Type \x27Agree\x27 to continue or \x27Exit\x27 to quit."
        state := s
        events := [Event.gateConsent] } := by
  simp [processMessage, hA, hp, hu2]

theorem pm_consent_other (env : Env) (s : ChatState) (u ph : String)
    (hA : strContains (lowerStr u) "agent" = false)
    (hp : s.context.privacy = none)
    (hu : stripStr (lowerStr u) ≠ "agree")
    (hu2 : stripStr (lowerStr u) ≠ "disagree") :
    processMessage env s u ph =
      { result := Except.ok "Hello! Please confirm you agree to our privacy policy to proceed. Type \x27Agree\x27 or \x27Disagree\x27."
        state := s
        events := [Event.gateConsent] } := by
  simp [processMessage, hA, hp, hu, hu2]

theorem pm_privacy_false (env : Env) (s : ChatState) (u ph : String)
    (hA : strContains (lowerStr u) "agent" = false)
    (hp : s.context.privacy = some false) :
    processMessage env s u ph =
      { result := Except.ok "You need to agree to our privacy policy to proceed. Type \x27Agree\x27 to continue."
        state := s
        events := [Event.gateConsent, Event.consentDenied] } := by
  simp [processMessage, hA, hp]

theorem pm_privacy_true (env : Env) (s : ChatState) (u ph : String)
    (hA : strContains (lowerStr u) "agent" = false)
    (hp : s.context.privacy = some true) :
    processMessage env s u ph =
      { result := (afterConsent env s u ph).result
        state := (afterConsent env s u ph).state
        events := Event.gateConsent :: (afterConsent env s u ph).events } := by
  simp [processMessage, hA, hp]

/-! ## Per-turn master lemmas over process_message -/

theorem turn_privacy (env : Env) (s : ChatState) (u ph : String)
    (h : s.context.privacy ≠ some false) :
    (processMessage env s u ph).state.context.privacy ≠ some false ∧
    Event.consentDenied ∉ (processMessage env s u ph).events := by
  by_cases hA : strContains (lowerStr u) "agent" = true
  · cases hag : getAvailableAgent s.agents with
    | some a => rw [pm_agent_some env s u ph a hA hag]; exact ⟨h, by simp⟩
    | none => rw [pm_agent_none env s u ph hA hag]; exact ⟨h, by simp⟩
  · rw [Bool.not_eq_true] at hA
    cases hp : s.context.privacy with
    | none =>
      by_cases hu : stripStr (lowerStr u) = "agree"
      · rw [pm_consent_agree env s u ph hA hp hu]; exact ⟨by simp, by simp⟩
      · by_cases hu2 : stripStr (lowerStr u) = "disagree"
        · rw [pm_consent_disagree env s u ph hA hp hu hu2]; exact ⟨by simp [hp], by simp⟩
        · rw [pm_consent_other env s u ph hA hp hu hu2]; exact ⟨by simp [hp], by simp⟩
    | some p =>
      cases p with
      | false => exact absurd hp h
      | true =>
        rw [pm_privacy_true env s u ph hA hp]
        refine ⟨by simp [afterConsent_context_privacy, hp], ?_⟩
        simp [List.mem_cons, consentDenied_not_afterConsent env s u ph]

theorem turn_customer_some (env : Env) (s : ChatState) (u ph : String) (c : Customer)
    (hc : s.context.customer = some c) :
    (processMessage env s u ph).state.context.customer = some c ∧
    (processMessage env s u ph).events.countP isLookup = 0 := by
  by_cases hA : strContains (lowerStr u) "agent" = true
  · cases hag : getAvailableAgent s.agents with
    | some a => rw [pm_agent_some env s u ph a hA hag]; exact ⟨hc, by simp [isLookup]⟩
    | none => rw [pm_agent_none env s u ph hA hag]; exact ⟨hc, by simp⟩
  · rw [Bool.not_eq_true] at hA
    cases hp : s.context.privacy with
    | none =>
      by_cases hu : stripStr (lowerStr u) = "agree"
      · rw [pm_consent_agree env s u ph hA hp hu]; exact ⟨by simp [hc], by simp [isLookup]⟩
      · by_cases hu2 : stripStr (lowerStr u) = "disagree"
        · rw [pm_consent_disagree env s u ph hA hp hu hu2]; exact ⟨hc, by simp [isLookup]⟩
        · rw [pm_consent_other env s u ph hA hp hu hu2]; exact ⟨hc, by simp [isLookup]⟩
    | some p =>
      cases p with
      | false => rw [pm_privacy_false env s u ph hA hp]; exact ⟨hc, by simp [isLookup]⟩
      | true =>
        rw [pm_privacy_true env s u ph hA hp]
        obtain ⟨h1, h2⟩ := afterConsent_customer_some env s u ph c hc
        exact ⟨h1, by simp [List.countP_cons, isLookup, h2]⟩

theorem turn_customer_none (env : Env) (s : ChatState) (u ph : String)
    (hc : s.context.customer = none) :
    ((processMessage env s u ph).state.context.customer = none ∧
      (processMessage env s u ph).events.countP isSuccLookup = 0) ∨
    (∃ c, (processMessage env s u ph).state.context.customer = some c ∧
      (processMessage env s u ph).events.countP isSuccLookup = 1) := by
  by_cases hA : strContains (lowerStr u) "agent" = true
  · cases hag : getAvailableAgent s.agents with
    | some a =>
      rw [pm_agent_some env s u ph a hA hag]
      exact Or.inl ⟨hc, by simp [isSuccLookup]⟩
    | none =>
      rw [pm_agent_none env s u ph hA hag]
      exact Or.inl ⟨hc, by simp⟩
  · rw [Bool.not_eq_true] at hA
    cases hp : s.context.privacy with
    | none =>
      by_cases hu : stripStr (lowerStr u) = "agree"
      · rw [pm_consent_agree env s u ph hA hp hu]
        exact Or.inl ⟨by simp [hc], by simp [isSuccLookup]⟩
      · by_cases hu2 : stripStr (lowerStr u) = "disagree"
        · rw [pm_consent_disagree env s u ph hA hp hu hu2]
          exact Or.inl ⟨hc, by simp [isSuccLookup]⟩
        · rw [pm_consent_other env s u ph hA hp hu hu2]
          exact Or.inl ⟨hc, by simp [isSuccLookup]⟩
    | some p =>
      cases p with
      | false =>
        rw [pm_privacy_false env s u ph hA hp]
        exact Or.inl ⟨hc, by simp [isSuccLookup]⟩
      | true =>
        rw [pm_privacy_true env s u ph hA hp]
        rcases afterConsent_customer_none env s u ph hc with ⟨h1, h2⟩ | ⟨c, h1, h2⟩
        · exact Or.inl ⟨h1, by simp [List.countP_cons, isSuccLookup, h2]⟩
        · exact Or.inr ⟨c, h1, by simp [List.countP_cons, isSuccLookup, h2]⟩

/-! ## Run-level lemmas -/

theorem runTurns_privacy (env : Env) (s : ChatState) (msgs : List String) (ph : String)
    (h : s.context.privacy ≠ some false) :
    (runTurns env s msgs ph).1.context.privacy ≠ some false ∧
    Event.consentDenied ∉ (runTurns env s msgs ph).2 := by
  induction msgs generalizing s with
  | nil => simpa [runTurns] using h
  | cons m ms ih =>
    obtain ⟨h1, h2⟩ := turn_privacy env s m ph h
    obtain ⟨h3, h4⟩ := ih (processMessage env s m ph).state h1
    simp only [runTurns]
    exact ⟨h3, by simp [List.mem_append, h2, h4]⟩

theorem runTurns_customer_some (env : Env) (s : ChatState) (msgs : List String)
    (ph : String) (c : Customer) (hc : s.context.customer = some c) :
    (runTurns env s msgs ph).1.context.customer = some c ∧
    (runTurns env s msgs ph).2.countP isLookup = 0 := by
  induction msgs generalizing s with
  | nil => simpa [runTurns] using hc
  | cons m ms ih =>
    obtain ⟨h1, h2⟩ := turn_customer_some env s m ph c hc
    obtain ⟨h3, h4⟩ := ih (processMessage env s m ph).state h1
    simp only [runTurns]
    exact ⟨h3, by simp [List.countP_append, h2, h4]⟩

theorem runTurns_succLookup_le_one (env : Env) (s : ChatState) (msgs : List String)
    (ph : String) (hc : s.context.customer = none) :
    (runTurns env s msgs ph).2.countP isSuccLookup ≤ 1 := by
  induction msgs generalizing s with
  | nil => simp [runTurns]
  | cons m ms ih =>
    simp only [runTurns, List.countP_append]
    rcases turn_customer_none env s m ph hc with ⟨h1, h2⟩ | ⟨c, h1, h2⟩
    · have h3 := ih (processMessage env s m ph).state h1
      omega
    · have h3 := (runTurns_customer_some env (processMessage env s m ph).state ms ph c h1).2
      have h4 : (runTurns env (processMessage env s m ph).state ms ph).2.countP isSuccLookup = 0 := by
        have := succLookup_le_lookup (runTurns env (processMessage env s m ph).state ms ph).2
        omega
      omega

/-! ## Claims -/

/-- Claim C1: on every turn of every session, intent routing and generation
occur only when the session context already records `privacy = true` at the
start of the turn, and the consent and identity gates are evaluated, in that
fixed order, at the head of the turn trace before any routing or generation
event. -/
theorem c1_gating_precedes_dispatch (env : Env) (s : ChatState) (u ph : String)
    (h : (processMessage env s u ph).events.any isDispatchEv = true) :
    s.context.privacy = some true ∧
    ∃ rest, (processMessage env s u ph).events =
        Event.gateConsent :: Event.gateIdentity :: rest ∧
      rest.any isDispatchEv = true := by
  by_cases hA : strContains (lowerStr u) "agent" = true
  · cases hag : getAvailableAgent s.agents with
    | some a => rw [pm_agent_some env s u ph a hA hag] at h; simp [isDispatchEv] at h
    | none => rw [pm_agent_none env s u ph hA hag] at h; simp at h
  · rw [Bool.not_eq_true] at hA
    cases hp : s.context.privacy with
    | none =>
      by_cases hu : stripStr (lowerStr u) = "agree"
      · rw [pm_consent_agree env s u ph hA hp hu] at h; simp [isDispatchEv] at h
      · by_cases hu2 : stripStr (lowerStr u) = "disagree"
        · rw [pm_consent_disagree env s u ph hA hp hu hu2] at h; simp [isDispatchEv] at h
        · rw [pm_consent_other env s u ph hA hp hu hu2] at h; simp [isDispatchEv] at h
    | some p =>
      cases p with
      | false => rw [pm_privacy_false env s u ph hA hp] at h; simp [isDispatchEv] at h
      | true =>
        refine ⟨rfl, ?_⟩
        rw [pm_privacy_true env s u ph hA hp] at h ⊢
        obtain ⟨tail, ht⟩ := afterConsent_shape env s u ph
        dsimp only at h ⊢
        rw [ht] at h ⊢
        refine ⟨tail, rfl, ?_⟩
        simpa [List.any_cons, isDispatchEv] using h

/-- Claim C1 witness: a consented identified session routing an intent. -/
theorem c1_witness :
    (processMessage envPlain stIdent "make a claim" "0803").events.any isDispatchEv = true ∧
    (stIdent.context.privacy = some true ∧
      ∃ rest, (processMessage envPlain stIdent "make a claim" "0803").events =
          Event.gateConsent :: Event.gateIdentity :: rest ∧
        rest.any isDispatchEv = true) :=
  ⟨by decide, c1_gating_precedes_dispatch envPlain stIdent "make a claim" "0803" (by decide)⟩

/-- Claim C2: context fusion never produces the empty grounding string, and
whenever both reduced text blocks are empty it produces exactly the fixed
sentinel string. -/
theorem c2_fusion_never_empty (ws : List SearchResult) (ds : List RetrievedDoc) :
    fuseContext (webJoin ws) (kbJoin ds) ≠ "" ∧
    (webJoin ws = "" → kbJoin ds = "" →
      fuseContext (webJoin ws) (kbJoin ds) = "No relevant information found.") := by
  constructor
  · unfold fuseContext
    split
    · intro hEq
      have hl := congrArg String.length hEq
      rw [String.length_append, String.length_append] at hl
      have h1 : ("\n" : String).length = 1 := rfl
      have h0 : ("" : String).length = 0 := rfl
      rw [h1, h0] at hl
      omega
    · decide
  · intro hw hk
    unfold fuseContext
    rw [hw, hk]
    simp

/-- Claim C2 witness: both sources empty yield the sentinel. -/
theorem c2_witness :
    webJoin [] = "" ∧ kbJoin [] = "" ∧
    fuseContext (webJoin []) (kbJoin []) = "No relevant information found." :=
  ⟨rfl, rfl, (c2_fusion_never_empty [] []).2 rfl rfl⟩

/-- Claim C5: an exception in either retrieval source is caught locally,
logged as an audit event of kind Error, and treated as the empty result
list; the other source's reduced block reaches fusion unaffected and the
turn still proceeds to generation. -/
theorem c5_retrieval_isolation (env : Env) (q u : String) (ctx : Context) (e : String) :
    (env.webSearch q = Except.error e →
      googleSearch env q =
        ([], [Event.webCall, Event.audit "Error" ("Google search failed: " ++ e)])) ∧
    (env.kbRetrieve q = Except.error e →
      retrieveFromKnowledgeBase env q =
        ([], [Event.kbCall, Event.audit "Error" ("Knowledge base retrieval failed: " ++ e)])) ∧
    (∃ sc, Event.generate sc ∈ (generateResponse env u ctx).2) ∧
    (env.webSearch (u ++ " for Heirs Insurance Group") = Except.error e →
      Event.generate
          (fuseContext ""
            (kbJoin (retrieveFromKnowledgeBase env (u ++ " for Heirs Insurance Group")).1)) ∈
        (generateResponse env u ctx).2) ∧
    (env.kbRetrieve (u ++ " for Heirs Insurance Group") = Except.error e →
      Event.generate
          (fuseContext (webJoin (googleSearch env (u ++ " for Heirs Insurance Group")).1) "") ∈
        (generateResponse env u ctx).2) := by
  refine ⟨?_, ?_, ?_, ?_, ?_⟩
  · intro h
    simp [googleSearch, h]
  · intro h
    simp [retrieveFromKnowledgeBase, h]
  · refine ⟨fuseContext (webJoin (googleSearch env (u ++ " for Heirs Insurance Group")).1)
        (kbJoin (retrieveFromKnowledgeBase env (u ++ " for Heirs Insurance Group")).1), ?_⟩
    unfold generateResponse
    simp
  · intro h
    have hweb : (googleSearch env (u ++ " for Heirs Insurance Group")).1 = [] := by
      simp [googleSearch, h]
    unfold generateResponse
    simp only [List.mem_append, List.mem_singleton]
    right
    rw [hweb]
    rfl
  · intro h
    have hkb : (retrieveFromKnowledgeBase env (u ++ " for Heirs Insurance Group")).1 = [] := by
      simp [retrieveFromKnowledgeBase, h]
    unfold generateResponse
    simp only [List.mem_append, List.mem_singleton]
    right
    rw [hkb]
    rfl

/-- Claim C5 witness: the failing-web environment at a concrete query. -/
theorem c5_witness :
    envWebFail.webSearch "q" = Except.error "boom" ∧
    googleSearch envWebFail "q" =
      ([], [Event.webCall, Event.audit "Error" ("Google search failed: " ++ "boom")]) ∧
    Event.generate
        (fuseContext ""
          (kbJoin (retrieveFromKnowledgeBase envWebFail ("hi" ++ " for Heirs Insurance Group")).1)) ∈
      (generateResponse envWebFail "hi" stIdent.context).2 :=
  ⟨rfl,
   (c5_retrieval_isolation envWebFail "q" "hi" stIdent.context "boom").1 rfl,
   (c5_retrieval_isolation envWebFail "q" "hi" stIdent.context "boom").2.2.2.1 rfl⟩

/-- Claim C7: a message containing the token agent escalates: with an
available agent the reply names the agent's name, expertise and email, that
agent's row is set busy with its last-active timestamp refreshed, and an
agent-escalation audit event is emitted; with no available agent the fixed
unavailability message is returned and nothing is mutated. -/
theorem c7_agent_escalation (env : Env) (s : ChatState) (u ph : String)
    (hA : strContains (lowerStr u) "agent" = true) :
    (∀ a, getAvailableAgent s.agents = some a →
      (processMessage env s u ph).result =
        Except.ok ("Connecting you with " ++ a.name ++ ", who specializes in " ++
          a.expertise ++ ". Contact: " ++ a.email ++ ".") ∧
      (processMessage env s u ph).state.agents =
        updateAgentStatus s.agents a.id AgentStatus.busy env.now ∧
      (∀ x ∈ (processMessage env s u ph).state.agents, x.id = a.id →
        x.status = AgentStatus.busy ∧ x.lastActive = env.now) ∧
      Event.audit "Agent Escalation" ("Customer connected to agent " ++ a.name ++ ".") ∈
        (processMessage env s u ph).events ∧
      (processMessage env s u ph).state.sessions = s.sessions) ∧
    (getAvailableAgent s.agents = none →
      (processMessage env s u ph).result =
        Except.ok "No agents available. Please try later or let me assist further." ∧
      (processMessage env s u ph).state = s ∧
      (processMessage env s u ph).events = []) := by
  constructor
  · intro a hag
    rw [pm_agent_some env s u ph a hA hag]
    refine ⟨rfl, rfl, ?_, by simp, rfl⟩
    intro x hx hid
    dsimp only at hx
    unfold updateAgentStatus at hx
    obtain ⟨y, hy, hfy⟩ := List.mem_map.mp hx
    by_cases hyy : (y.id == a.id) = true
    · rw [if_pos hyy] at hfy
      rw [← hfy]
      exact ⟨rfl, rfl⟩
    · rw [if_neg hyy] at hfy
      rw [← hfy] at hid
      exact absurd (beq_iff_eq.mpr hid) hyy
  · intro hag
    rw [pm_agent_none env s u ph hA hag]
    exact ⟨rfl, rfl, rfl⟩

/-- Claim C7 witness: one available agent named A is assigned and set busy. -/
theorem c7_witness :
    strContains (lowerStr "agent") "agent" = true ∧
    getAvailableAgent stAgent.agents = some agentA ∧
    (processMessage envPlain stAgent "agent" "0803").result =
      Except.ok ("Connecting you with " ++ agentA.name ++ ", who specializes in " ++
        agentA.expertise ++ ". Contact: " ++ agentA.email ++ ".") ∧
    (processMessage envPlain stAgent "agent" "0803").state.agents =
      updateAgentStatus stAgent.agents agentA.id AgentStatus.busy envPlain.now :=
  ⟨by decide, by decide,
   ((c7_agent_escalation envPlain stAgent "agent" "0803" (by decide)).1 agentA (by decide)).1,
   ((c7_agent_escalation envPlain stAgent "agent" "0803" (by decide)).1 agentA (by decide)).2.1⟩

/-- Claim C3 counterexample: a turn resolved by the structured intent
`make a claim` also appends a snapshot row, so snapshots are not reserved to
AI-generated turns. -/
theorem c3_counterexample :
    Event.intentRoute "make a claim" ∈
      (processMessage envPlain stIdent "make a claim" "0803").events ∧
    Event.snapshot 1 ∈ (processMessage envPlain stIdent "make a claim" "0803").events ∧
    (processMessage envPlain stIdent "make a claim" "0803").state.sessions.length = 1 := by
  decide

/-- Claim C3 (amended): exactly one context-snapshot row is appended per
completed turn that reaches dispatch — whether resolved by a structured
intent or by the generative fallback — and none on any other turn; the
snapshot count always matches the growth of the chat-session store. -/
theorem c3_snapshot_per_dispatched_turn (env : Env) (s : ChatState) (u ph : String) :
    (processMessage env s u ph).events.countP isSnapshotEv =
      (if env.snapshotOk && (processMessage env s u ph).events.any isDispatchEv
        then 1 else 0) ∧
    (processMessage env s u ph).state.sessions.length =
      s.sessions.length + (processMessage env s u ph).events.countP isSnapshotEv := by
  by_cases hA : strContains (lowerStr u) "agent" = true
  · cases hag : getAvailableAgent s.agents with
    | some a =>
      rw [pm_agent_some env s u ph a hA hag]
      exact ⟨by simp [isSnapshotEv, isDispatchEv], by simp [isSnapshotEv]⟩
    | none =>
      rw [pm_agent_none env s u ph hA hag]
      exact ⟨by simp, by simp⟩
  · rw [Bool.not_eq_true] at hA
    cases hp : s.context.privacy with
    | none =>
      by_cases hu : stripStr (lowerStr u) = "agree"
      · rw [pm_consent_agree env s u ph hA hp hu]
        exact ⟨by simp [isSnapshotEv, isDispatchEv], by simp [isSnapshotEv]⟩
      · by_cases hu2 : stripStr (lowerStr u) = "disagree"
        · rw [pm_consent_disagree env s u ph hA hp hu hu2]
          exact ⟨by simp [isSnapshotEv, isDispatchEv], by simp [isSnapshotEv]⟩
        · rw [pm_consent_other env s u ph hA hp hu hu2]
          exact ⟨by simp [isSnapshotEv, isDispatchEv], by simp [isSnapshotEv]⟩
    | some p =>
      cases p with
      | false =>
        rw [pm_privacy_false env s u ph hA hp]
        exact ⟨by simp [isSnapshotEv, isDispatchEv], by simp [isSnapshotEv]⟩
      | true =>
        rw [pm_privacy_true env s u ph hA hp]
        dsimp only
        rcases afterConsent_snapshot env s u ph with ⟨ha, hcnt, hlen⟩ | ⟨ha, hcnt, hsess⟩
        · constructor
          · rw [List.countP_cons, List.any_cons, ha, hcnt]
            cases env.snapshotOk <;> rfl
          · rw [List.countP_cons, hcnt]
            simpa [isSnapshotEv] using hlen
        · constructor
          · rw [List.countP_cons, List.any_cons, ha, hcnt]
            cases env.snapshotOk <;> rfl
          · rw [List.countP_cons, hcnt, hsess]
            rfl

/-- Claim C4 counterexample: with the web source failing and one knowledge
document, generation is invoked with a leading newline prepended to the
document content, not with the document content alone. -/
theorem c4_counterexample :
    Event.generate ("\n" ++ "PolicyDoc") ∈
      (processMessage envWebFail stIdent "tell me about life insurance" "0803").events ∧
    Event.generate "PolicyDoc" ∉
      (processMessage envWebFail stIdent "tell me about life insurance" "0803").events ∧
    ("\n" ++ "PolicyDoc" : String) ≠ "PolicyDoc" := by
  decide

/-- Claim C4 (amended): for an identified customer sending an open-ended
message, when web search fails and the knowledge base returns exactly one
document with nonempty content, generation is still invoked and the fused
grounding context is the newline separator followed by that document's
content (the failed web source contributes only the separator). -/
theorem c4_web_failure_kb_only (env : Env) (s : ChatState) (u ph : String)
    (c : Customer) (d : RetrievedDoc) (e : String)
    (hA : strContains (lowerStr u) "agent" = false)
    (hp : s.context.privacy = some true)
    (hc : s.context.customer = some c)
    (hi : intents.contains (lowerStr u) = false)
    (hw : env.webSearch (u ++ " for Heirs Insurance Group") = Except.error e)
    (hk : env.kbRetrieve (u ++ " for Heirs Insurance Group") = Except.ok [d])
    (hd : d.pageContent ≠ "") :
    Event.generate ("\n" ++ d.pageContent) ∈ (processMessage env s u ph).events := by
  have hfuse : fuseContext (webJoin (googleSearch env (u ++ " for Heirs Insurance Group")).1)
      (kbJoin (retrieveFromKnowledgeBase env (u ++ " for Heirs Insurance Group")).1) =
      "\n" ++ d.pageContent := by
    have hweb : (googleSearch env (u ++ " for Heirs Insurance Group")).1 = [] := by
      simp [googleSearch, hw]
    have hkb : (retrieveFromKnowledgeBase env (u ++ " for Heirs Insurance Group")).1 = [d] := by
      simp [retrieveFromKnowledgeBase, hk]
    rw [hweb, hkb]
    have hkj : kbJoin [d] = d.pageContent := rfl
    have hwj : webJoin ([] : List SearchResult) = "" := rfl
    rw [hkj, hwj]
    unfold fuseContext
    rw [if_pos (Or.inr hd)]
    have : ("" : String) ++ "\n" = "\n" := rfl
    rw [show ("" : String) ++ "\n" ++ d.pageContent = "\n" ++ d.pageContent from
      congrArg (· ++ d.pageContent) this]
  have hgen : Event.generate ("\n" ++ d.pageContent) ∈ (generateResponse env u s.context).2 := by
    unfold generateResponse
    simp only [List.mem_append, List.mem_singleton]
    right
    rw [hfuse]
  have hdisp : Event.generate ("\n" ++ d.pageContent) ∈ (dispatch env s u).2 := by
    unfold dispatch
    rw [if_neg (by rw [hi]; exact Bool.false_ne_true)]
    exact hgen
  rw [pm_privacy_true env s u ph hA hp]
  dsimp only
  unfold afterConsent
  rw [hc]
  dsimp only
  cases hok : env.snapshotOk with
  | true =>
    obtain ⟨he, _⟩ := afterIdentity_events_ok env s u c hok
    rw [he]
    simp [List.mem_append, hdisp]
  | false =>
    obtain ⟨he, _, _⟩ := afterIdentity_events_err env s u c hok
    rw [he]
    simp [hdisp]

/-- Claim C4 witness: the amended statement at the failing-web fixture. -/
theorem c4_witness :
    intents.contains (lowerStr "tell me about life insurance") = false ∧
    Event.generate ("\n" ++ "PolicyDoc") ∈
      (processMessage envWebFail stIdent "tell me about life insurance" "0803").events :=
  ⟨by decide,
   c4_web_failure_kb_only envWebFail stIdent "tell me about life insurance" "0803"
     cust1 ⟨"PolicyDoc"⟩ "boom" (by decide) (by decide) (by decide) (by decide)
     rfl rfl (by decide)⟩

/-- Claim C6 counterexample: a message that matches the intent only after
trimming is not routed — the turn falls through to retrieval and generation
instead of the canned claim response. -/
theorem c6_counterexample :
    intents.contains (stripStr (lowerStr " make a claim")) = true ∧
    (processMessage envPlain stIdent " make a claim" "0803").events =
      [Event.gateConsent, Event.gateIdentity, Event.webCall, Event.kbCall,
        Event.generate "No relevant information found.", Event.snapshot 1] ∧
    Event.intentRoute (stripStr (lowerStr " make a claim")) ∉
      (processMessage envPlain stIdent " make a claim" "0803").events ∧
    (processMessage envPlain stIdent " make a claim" "0803").result ≠
      Except.ok "To make a claim, please upload the necessary documents." := by
  decide

/-- Claim C6 (amended): on a consented, identified session, a message whose
lowercased form (without trimming) exactly equals one of the four fixed
intents is dispatched to the corresponding canned response via
`handle_purpose`, with no retrieval call and no generation on that turn; the
canned response is returned whenever the snapshot insert succeeds. -/
theorem c6_intent_dispatch (env : Env) (s : ChatState) (u ph : String) (c : Customer)
    (hA : strContains (lowerStr u) "agent" = false)
    (hp : s.context.privacy = some true)
    (hc : s.context.customer = some c)
    (hi : intents.contains (lowerStr u) = true) :
    Event.intentRoute (lowerStr u) ∈ (processMessage env s u ph).events ∧
    (processMessage env s u ph).events.countP isRetrievalEv = 0 ∧
    (processMessage env s u ph).events.countP isGenerateEv = 0 ∧
    (env.snapshotOk = true →
      (processMessage env s u ph).result = Except.ok (handlePurpose u)) := by
  have hd : dispatch env s u = (handlePurpose u, [Event.intentRoute (lowerStr u)]) := by
    unfold dispatch
    rw [if_pos hi]
  rw [pm_privacy_true env s u ph hA hp]
  dsimp only
  unfold afterConsent
  rw [hc]
  dsimp only
  cases hok : env.snapshotOk with
  | true =>
    obtain ⟨he, hr⟩ := afterIdentity_events_ok env s u c hok
    rw [he, hr, hd]
    refine ⟨by simp, ?_, ?_, fun _ => rfl⟩
    · simp [List.countP_cons, List.countP_append, isRetrievalEv]
    · simp [List.countP_cons, List.countP_append, isGenerateEv]
  | false =>
    obtain ⟨he, hr, _⟩ := afterIdentity_events_err env s u c hok
    rw [he, hd]
    refine ⟨by simp, ?_, ?_, ?_⟩
    · simp [List.countP_cons, isRetrievalEv]
    · simp [List.countP_cons, isGenerateEv]
    · intro hcontra
      exact absurd hcontra Bool.false_ne_true

/-- Claim C6 witness: the exact lowercase intent is routed with no
retrieval or generation. -/
theorem c6_witness :
    intents.contains (lowerStr "Make a Claim") = true ∧
    Event.intentRoute (lowerStr "Make a Claim") ∈
      (processMessage envPlain stIdent "Make a Claim" "0803").events ∧
    (processMessage envPlain stIdent "Make a Claim" "0803").events.countP isRetrievalEv = 0 ∧
    (processMessage envPlain stIdent "Make a Claim" "0803").result =
      Except.ok (handlePurpose "Make a Claim") :=
  ⟨by decide,
   (c6_intent_dispatch envPlain stIdent "Make a Claim" "0803" cust1
     (by decide) (by decide) (by decide) (by decide)).1,
   (c6_intent_dispatch envPlain stIdent "Make a Claim" "0803" cust1
     (by decide) (by decide) (by decide) (by decide)).2.1,
   (c6_intent_dispatch envPlain stIdent "Make a Claim" "0803" cust1
     (by decide) (by decide) (by decide) (by decide)).2.2.2 rfl⟩

/-- Claim C8 counterexample: when the snapshot insert fails on a
generative-fallback turn, the computed response is lost — `process_message`
propagates the store exception instead of returning the response. -/
theorem c8_counterexample :
    Event.generate "No relevant information found." ∈
      (processMessage envSnapFail stIdent "hello there" "0803").events ∧
    (processMessage envSnapFail stIdent "hello there" "0803").result =
      Except.error "sqlite3.OperationalError" ∧
    (processMessage envSnapFail stIdent "hello there" "0803").result ≠
      Except.ok "GEN" := by
  decide

/-- Claim C8 (amended): on any dispatched turn of a consented, identified
session, a failure of the context-snapshot insert propagates out of
`process_message`: the call yields the store exception rather than the
computed response, and no snapshot row is appended. -/
theorem c8_snapshot_failure_loses_response (env : Env) (s : ChatState) (u ph : String)
    (c : Customer)
    (hA : strContains (lowerStr u) "agent" = false)
    (hp : s.context.privacy = some true)
    (hc : s.context.customer = some c)
    (hok : env.snapshotOk = false) :
    (processMessage env s u ph).result = Except.error "sqlite3.OperationalError" ∧
    (∀ resp, (processMessage env s u ph).result ≠ Except.ok resp) ∧
    (processMessage env s u ph).state.sessions = s.sessions := by
  rw [pm_privacy_true env s u ph hA hp]
  dsimp only
  unfold afterConsent
  rw [hc]
  dsimp only
  obtain ⟨_, hr, hs⟩ := afterIdentity_events_err env s u c hok
  rw [hr]
  exact ⟨rfl, fun resp h => Except.noConfusion h, hs⟩

/-- Claim C8 witness: the amended statement at the failing-store fixture. -/
theorem c8_witness :
    envSnapFail.snapshotOk = false ∧
    (processMessage envSnapFail stIdent "hello there" "0803").result =
      Except.error "sqlite3.OperationalError" :=
  ⟨rfl,
   (c8_snapshot_failure_loses_response envSnapFail stIdent "hello there" "0803" cust1
     (by decide) (by decide) (by decide) rfl).1⟩

/-- Claim C9 counterexample: after consent, a session whose identity lookup
fails performs the external lookup again on every later turn, so the lookup
is not performed at most once per session. -/
theorem c9_counterexample :
    (runTurns envNoCust (initialState [] []) ["agree", "hello", "again"] "0803").2.countP
      isLookup = 2 := by
  decide

/-- Claim C9 (amended): at most one identity lookup per session succeeds —
once a lookup succeeds its result is cached under the customer key and no
further lookups are performed on any later turn — while a failed lookup
returns the terminal support message without caching anything or changing
the context, leaving the lookup to be retried on later turns. -/
theorem c9_lookup_caching (env : Env) (ph : String) :
    (∀ s msgs, s.context.customer = none →
      (runTurns env s msgs ph).2.countP isSuccLookup ≤ 1) ∧
    (∀ s msgs c, s.context.customer = some c →
      (runTurns env s msgs ph).2.countP isLookup = 0 ∧
      (runTurns env s msgs ph).1.context.customer = some c) ∧
    (∀ s u, s.context.privacy = some true → s.context.customer = none →
      strContains (lowerStr u) "agent" = false →
      getCustomerInfo env ph = none →
      (processMessage env s u ph).result =
        Except.ok "Sorry, we couldn\x27t find your details. Please contact support for assistance." ∧
      (processMessage env s u ph).state.context = s.context) := by
  refine ⟨?_, ?_, ?_⟩
  · intro s msgs hc
    exact runTurns_succLookup_le_one env s msgs ph hc
  · intro s msgs c hc
    obtain ⟨h1, h2⟩ := runTurns_customer_some env s msgs ph c hc
    exact ⟨h2, h1⟩
  · intro s u hp hc hA hl
    rw [pm_privacy_true env s u ph hA hp]
    dsimp only
    unfold afterConsent
    rw [hc, hl]
    exact ⟨rfl, rfl⟩

/-- Claim C9 witness: the amended statement at a concrete session. -/
theorem c9_witness :
    stIdent.context.customer = some cust1 ∧
    (runTurns envPlain stIdent ["hello", "Make a Claim"] "0803").2.countP isLookup = 0 ∧
    (runTurns envPlain stIdent ["hello", "Make a Claim"] "0803").1.context.customer =
      some cust1 :=
  ⟨rfl,
   ((c9_lookup_caching envPlain "0803").2.1 stIdent ["hello", "Make a Claim"] cust1 rfl).1,
   ((c9_lookup_caching envPlain "0803").2.1 stIdent ["hello", "Make a Claim"] cust1 rfl).2⟩

/-- Claim C10: starting from a fresh session, after any sequence of turns the
privacy key is either absent or true — a disagree reply never stores a false
flag — and the defensive consent-denied branch (which would fire exactly when
a present-but-false flag is seen) is never taken in any execution. -/
theorem c10_privacy_never_false (env : Env) (agents0 : List Agent)
    (rows0 : List (Nat × String × Nat)) (msgs : List String) (ph : String) :
    ((runTurns env (initialState agents0 rows0) msgs ph).1.context.privacy = none ∨
      (runTurns env (initialState agents0 rows0) msgs ph).1.context.privacy = some true) ∧
    Event.consentDenied ∉ (runTurns env (initialState agents0 rows0) msgs ph).2 := by
  have h := runTurns_privacy env (initialState agents0 rows0) msgs ph
    (by simp [initialState])
  refine ⟨?_, h.2⟩
  cases hfin : (runTurns env (initialState agents0 rows0) msgs ph).1.context.privacy with
  | none => exact Or.inl rfl
  | some b =>
    cases b with
    | false => exact absurd hfin h.1
    | true => exact Or.inr rfl

end Prince
